import Mathlib

/-!
Verification development for the troble-ai voice-assistant pipeline.

The definitions below are a shallow embedding of the orchestration layer:
the capture worker (src/pipeline/voice_input_module.py), the response
worker loop (src/pipeline/pipeline_orchestrator.py, pipeline_worker_func),
the decision pipeline (src/pipeline/intelligence_module.py), the prompt
assembly of the LLM wrapper (src/llm_wrapper.py, send_to_llm), and the
interruptible playback helper (src/utils.py, play_wav_file_interruptible)
together with the legacy loop in src/s2s_pipeline.py.

Python wall-clock times become rationals, the process-shared C integer
interrupt counter becomes an integer, and every external collaborator
(recorder, transcriber, retrieval store, web search, LLM stream, speaker)
is an explicit oracle input: the value the collaborator produced and the
value of the shared interrupt counter at each point where the source reads
it.  Queue reads with a timeout become an Option input: some item when the
queue handed an item back within the bound, none on the Empty exception.
-/

/-! ## Python string primitives

The source normalizes transcripts with str.lower, str.strip, str.split
and the substring operator.  These are embedded on the character list of
a string, matching the Python semantics for the ASCII data the pipeline
handles. -/

/-- Python str.lower, per character (ASCII). -/
def pyLower (s : String) : String := ⟨s.data.map Char.toLower⟩

/-- Python str.strip: drop whitespace from both ends. -/
def pyStrip (s : String) : String :=
  ⟨((s.data.dropWhile Char.isWhitespace).reverse.dropWhile Char.isWhitespace).reverse⟩

/-- Python str.split with no separator: split on whitespace runs,
dropping empty pieces. -/
def pySplitWs (s : String) : List String :=
  ((s.data.splitOnP Char.isWhitespace).map (fun l => (⟨l⟩ : String))).filter
    (fun w => w ≠ "")

/-- Python substring test needle in hay (contiguous occurrence). -/
def containsSub (hay needle : String) : Bool :=
  hay.data.tails.any (fun t => needle.data.isPrefixOf t)

/-- Python context.replace of a newline by the empty string. -/
def stripNewlines (s : String) : String := ⟨s.data.filter (fun c => c ≠ '\n')⟩

/-! ## Configuration (config.py) -/

/-- config.py WAKEWORD_RESET_TIME = 45 seconds. -/
def WAKEWORD_RESET_TIME : ℚ := 45

/-- config.py CONTINUATION_THRESHOLD = 0.5 seconds, written as the
reduced rational one half. -/
def CONTINUATION_THRESHOLD : ℚ := ⟨1, 2, by decide, by decide⟩

/-- config.py RAG_CONFIDENCE_THRESHOLD = 0.3, written as the reduced
rational three tenths. -/
def RAG_CONFIDENCE_THRESHOLD : ℚ := ⟨3, 10, by decide, by decide⟩

/-- config.py ENABLE_WEBSEARCH = True. -/
def ENABLE_WEBSEARCH : Bool := true

/-- config.py ENABLE_THINK = False. -/
def ENABLE_THINK : Bool := false

/-- config.py GOODBYE_PHRASES. -/
def GOODBYE_PHRASES : List String :=
  ["goodbye", "bye", "see you later", "talk to you later", "bye bye",
   "good night", "goodnight", "catch you later", "see ya", "peace out",
   "until next time", "farewell", "take care", "later"]

/-! ## Work items (the queue protocol)

voice_input_module.run_loop lines 130 and 131 enqueue two dictionaries
with keys text, marker, continuation, is_goodbye, start_time. -/

/-- A queue work item, as produced by VoiceInputModule.run_loop. -/
structure Work where
  text : String
  marker : String
  continuation : Bool
  is_goodbye : Bool
  start_time : ℚ
  deriving DecidableEq, Repr

/-! ## CaptureWorker: VoiceInputModule -/

/-- The conversation state owned by VoiceInputModule (fields set in its
constructor, lines 25 to 28). -/
structure VoiceState where
  first_loop : Bool
  ask_wakeword : Bool
  last_command_time : ℚ
  prev_text : String
  deriving DecidableEq, Repr

/-- VoiceInputModule.is_goodbye_phrase (lines 68 to 71): case-insensitive
substring match of the configured phrases against the lowered, stripped
text. -/
def is_goodbye_phrase (text : String) : Bool :=
  let text_lower := pyStrip (pyLower text)
  GOODBYE_PHRASES.any (fun g => containsSub text_lower (pyLower g))

/-- VoiceInputModule.process_text_continuation (lines 73 to 87).  now1 is
the wall clock at the merge test (line 77), now2 at the update of
last_command_time (line 82). -/
def process_text_continuation (st : VoiceState) (text : String)
    (command_duration now1 now2 : ℚ) : (String × Bool) × VoiceState :=
  let merge := decide (0 < WAKEWORD_RESET_TIME) && !st.first_loop
      && decide (now1 - command_duration - st.last_command_time < CONTINUATION_THRESHOLD)
  let text1 := if merge then st.prev_text ++ ", " ++ text else text
  let continuation := merge
  let st1 := if !st.ask_wakeword then { st with last_command_time := now2 } else st
  ((text1, continuation), { st1 with prev_text := text1, first_loop := false })

/-- Oracle inputs for one iteration of VoiceInputModule.run_loop: the
wall clock at each read of time.time, whether the command queue was
non-empty at the barge-in test of line 105, whether record_command saw
enough speech (line 112), the recorded duration and the transcript. -/
structure LoopEnv where
  nowReset : ℚ
  nowWake : ℚ
  queueNonempty : Bool
  hasSpeech : Bool
  command_duration : ℚ
  transcript : String
  nowCont1 : ℚ
  nowCont2 : ℚ
  nowStart : ℚ
  deriving DecidableEq, Repr

/-- Result of one capture-loop iteration: the new conversation state, the
net change the iteration applied to the shared interrupt counter, the
work items appended to the command queue, and whether the iteration
blocked on wake-word detection (listen_for_wake_word ran). -/
structure LoopResult where
  state : VoiceState
  countDelta : ℤ
  emitted : List Work
  awaitedWake : Bool
  deriving DecidableEq, Repr

/-- The tail of a run_loop iteration from record_command on
(lines 110 to 139): speech gate, transcription gate, continuation merge,
goodbye detection, emission of the start and finish items, and the
goodbye reset of the conversation state. -/
def run_loop_command_phase (st : VoiceState) (env : LoopEnv) : VoiceState × List Work :=
  if !env.hasSpeech then (st, [])
  else if env.transcript = "" then (st, [])
  else
    match process_text_continuation st env.transcript env.command_duration
        env.nowCont1 env.nowCont2 with
    | ((text, continuation), st1) =>
      let gb := is_goodbye_phrase text
      let wStart : Work :=
        { text := text, marker := "start", continuation := continuation,
          is_goodbye := gb, start_time := env.nowStart }
      let wFinish : Work := { wStart with marker := "finish" }
      let st2 :=
        if gb then
          { st1 with
            ask_wakeword := true
            first_loop := true
            prev_text := ""
            last_command_time := 0 }
        else st1
      (st2, [wStart, wFinish])

/-- The wake-word reset of run_loop lines 97 to 100, with the test of
should_reset_wakeword (line 31). -/
def wakeword_reset_step (st : VoiceState) (nowReset : ℚ) : VoiceState :=
  if WAKEWORD_RESET_TIME < nowReset - st.last_command_time
    then { st with ask_wakeword := true } else st

/-- The wake-word wait of run_loop lines 102 and 103: when ask_wakeword
is set, listen_for_wake_word (lines 34 to 38) blocks until detection,
records the time and clears ask_wakeword. -/
def listen_step (st : VoiceState) (nowWake : ℚ) : VoiceState :=
  if st.ask_wakeword
    then { st with last_command_time := nowWake, ask_wakeword := false }
    else st

/-- One full iteration of VoiceInputModule.run_loop (lines 95 to 139):
wake-word reset test, wake-word wait, the barge-in increment guard of
lines 105 to 107, then the command phase. -/
def run_loop_iter (st : VoiceState) (env : LoopEnv) : LoopResult :=
  let stA := wakeword_reset_step st env.nowReset
  let stB := listen_step stA env.nowWake
  { state := (run_loop_command_phase stB env).1,
    countDelta := if stB.ask_wakeword && env.queueNonempty then 1 else 0,
    emitted := (run_loop_command_phase stB env).2,
    awaitedWake := stA.ask_wakeword }

/-! ## ResponseWorker: IntelligenceModule (src/pipeline/intelligence_module.py) -/

/-- A retrieval result, as the dictionaries returned by RAGLangchain.query
and consumed through their content and score keys. -/
structure QueryResult where
  content : String
  score : ℚ
  deriving DecidableEq, Repr

/-- The mutable state of IntelligenceModule relevant to process_query:
the duplicate-tracking fields (lines 28 and 29) and the interrupt context
list owned by its LLMWrapper (llm_wrapper.py line 14). -/
structure IntelState where
  last_processed_query : String
  last_processed_time : ℚ
  interrupt_context : List String
  deriving DecidableEq, Repr

/-- IntelligenceModule.interrupt_actions (lines 33 to 37): append the text
to the interrupt context unless it is already present. -/
def interrupt_actions (ctx : List String) (text : String) : List String :=
  if ctx.contains text then ctx else ctx ++ [text]

/-- The duplicate test of process_query lines 177 to 179: normalized text
equals the last processed query, under two seconds elapsed, and not a
continuation. -/
def duplicate_skip (st : IntelState) (current_time : ℚ) (text : String)
    (continuation : Bool) : Bool :=
  (pyLower (pyStrip text) == pyLower (pyStrip st.last_processed_query))
    && decide (current_time - st.last_processed_time < 2)
    && !continuation

/-- The tracking update of process_query lines 183 to 190: record the raw
text and time, then clear the interrupt context if it holds more than
three entries. -/
def track_update (st : IntelState) (current_time : ℚ) (text : String) : IntelState :=
  let st1 := { st with last_processed_query := text, last_processed_time := current_time }
  if 3 < st1.interrupt_context.length then { st1 with interrupt_context := [] } else st1

/-! ### The meaningfulness filter (_is_meaningful_prompt, lines 52 to 111)

The deny and allow regexes of the source are all anchored at the start
and, given that the tested string was split into words, each pattern is
equivalent to the word-level tests below. -/

/-- The regex for a single lowercase letter. -/
def matchesSingleLower (s : String) : Bool :=
  match s.data with
  | [c] => decide ('a' ≤ c) && decide (c ≤ 'z')
  | _ => false

/-- The fully anchored one-token deny alternations of lines 66 to 82. -/
def meaninglessExact : List String :=
  ["uh", "um", "hmm", "ah", "oh", "eh", "huh", "what", "hey", "yo",
   "the", "and", "or", "but", "if", "so", "to", "a", "an", "is", "are",
   "was", "were", "be", "yes", "no", "ok", "okay", "hi", "hello",
   ".", ",", "?", "!"]

/-- A deny pattern of lines 66 to 82 matches the cleaned text. -/
def matchesMeaninglessPattern (s : String) : Bool :=
  matchesSingleLower s || meaninglessExact.contains s

/-- A word character of the regex class, lowercase text included. -/
def isWordChar (c : Char) : Bool := c.isAlphanum || c = '_'

/-- Whether a word begins with a word character. -/
def startsWithWordChar (s : String) : Bool :=
  match s.data with
  | [] => false
  | c :: _ => isWordChar c

/-- First alternation of the first two-word pattern (line 91). -/
def questionWords : List String :=
  ["what", "how", "when", "where", "why", "who", "can", "will", "should",
   "could", "would", "do", "does", "did", "is", "are", "was", "were"]

/-- Literals of the second two-word pattern (line 92). -/
def secondWordLits : List String :=
  ["help", "please", "thanks", "now", "today", "tomorrow", "here", "there"]

/-- Verbs of the third two-word pattern (line 93). -/
def commandVerbs : List String :=
  ["tell", "show", "give", "find", "search", "play", "stop", "start",
   "open", "close"]

/-- The meaningful two-word patterns of lines 90 to 94, at word level:
pattern one and three require the first word to be one of the listed
literals followed by a word starting with a word character; pattern two
requires a first word made of word characters and a second word starting
with one of its literals. -/
def meaningfulTwoWord (w1 w2 : String) : Bool :=
  (questionWords.contains w1 && startsWithWordChar w2)
    || (!w1.isEmpty && w1.data.all isWordChar
          && secondWordLits.any (fun lit => lit.data.isPrefixOf w2.data))
    || (commandVerbs.contains w1 && startsWithWordChar w2)

/-- The meaningful single words of lines 104 to 109. -/
def meaningfulSingles : List String :=
  ["help", "stop", "pause", "resume", "continue", "restart", "repeat",
   "thanks", "thank", "please", "sorry", "excuse",
   "weather", "time", "date", "news", "music",
   "search", "find", "lookup", "google"]

/-- IntelligenceModule._is_meaningful_prompt (lines 52 to 111). -/
def is_meaningful_prompt (text : String) : Bool :=
  if text = "" then false
  else
    let cleaned := pyStrip (pyLower text)
    let words := pySplitWs cleaned
    if 2 < words.length then true
    else if matchesMeaninglessPattern cleaned then false
    else if words.length = 2 then
      match words with
      | [w1, w2] => meaningfulTwoWord w1 w2
      | _ => false
    else meaningfulSingles.contains cleaned

/-- The skip test of process_query lines 192 to 195: not meaningful, not a
continuation, not a goodbye. -/
def meaningless_skip (text : String) (continuation is_goodbye : Bool) : Bool :=
  !is_meaningful_prompt (pyStrip text) && !continuation && !is_goodbye

/-- The continuation pop of process_query lines 197 and 198. -/
def continuation_pop (st : IntelState) (continuation : Bool) : IntelState :=
  if continuation && !st.interrupt_context.isEmpty then
    { st with interrupt_context := st.interrupt_context.dropLast }
  else st

/-- IntelligenceModule.query_rag (lines 113 to 121): the oracle gives the
retrieval results and the interrupt counter value read at line 117. -/
def query_rag (c : ℤ) (ragResults : List QueryResult) : List QueryResult × Bool :=
  if 0 < c then ([], true)
  else
    let scores := (ragResults.map (fun q => q.score)) ++ [0]
    (ragResults, decide (RAG_CONFIDENCE_THRESHOLD ≤ scores.foldr max 0))

/-- IntelligenceModule.decide_websearch_needed (lines 150 to 159): the
oracle gives the classifier output of LLMWrapper.decide_websearch, none
when the stream was cut by an interrupt, and the counter value read at
line 155. -/
def decide_websearch_needed (dw : Option (String × String)) (c : ℤ) :
    Bool × String × Bool :=
  match dw with
  | none => (false, "", true)
  | some (decision, topic) =>
      if 0 < c then (false, "", true) else (decision == "yes", topic, false)

/-- IntelligenceModule.perform_websearch (lines 123 to 148): counter
values read after the search call, after the fetch, before each document
insertion, and after the final retrieval query; the oracle gives the
final retrieval results. -/
def perform_websearch (cDdg cFetch : ℤ) (docCnts : List ℤ) (cAfter : ℤ)
    (results : List QueryResult) : List QueryResult × Bool :=
  if 0 < cDdg then ([], true)
  else if 0 < cFetch then ([], true)
  else if docCnts.any (fun c => decide (0 < c)) then ([], true)
  else if 0 < cAfter then ([], true)
  else (results, false)

/-- IntelligenceModule.generate_response (lines 161 to 171): the oracle
gives the streamed LLM response, none when the stream was cut by an
interrupt, and the counter value read at line 167. -/
def generate_response (llmResp : Option String) (c : ℤ) : String × Bool :=
  match llmResp with
  | none => ("", true)
  | some r => if 0 < c then ("", true) else (r, false)

/-- The goodbye responses of process_query lines 206 to 212. -/
def goodbye_responses : List String :=
  ["Goodbye! Say 'Trouble' to talk again.",
   "See you later! Wake me with 'Trouble' when you need me.",
   "Take care! Just say 'Trouble' to start another conversation.",
   "Bye! I'll be listening for 'Trouble' when you're ready to chat.",
   "Until next time! Remember to say 'Trouble' to wake me up."]

/-- Oracle inputs for one process_query call: the wall clock of line 174,
the interrupt counter value at every read site, and the outputs of the
retrieval, classifier, search and generation collaborators. -/
structure IntelEnv where
  current_time : ℚ
  preflightCnt : ℤ
  ragCnt : ℤ
  afterRagCnt : ℤ
  ragResults : List QueryResult
  dwResult : Option (String × String)
  dwCnt : ℤ
  wsDdgCnt : ℤ
  wsFetchCnt : ℤ
  wsDocCnts : List ℤ
  wsFinalCnt : ℤ
  wsResults : List QueryResult
  llmResp : Option String
  llmCnt : ℤ
  goodbyeIdx : Fin 5
  deriving DecidableEq, Repr

/-- External collaborator calls a process_query run can attempt. -/
inductive ExtAction where
  | ragQuery
  | llmDecide
  | webSearch
  | llmGenerate
  deriving DecidableEq, Repr

/-- Result of one process_query call: the returned pair, the module state
after the call, the collaborator calls attempted, and the content of the
user message sent to the LLM when generation was reached. -/
structure PQResult where
  response : String
  interrupted : Bool
  state : IntelState
  actions : List ExtAction
  genPrompt : Option String
  deriving DecidableEq, Repr

/-! ### Prompt assembly (LLMWrapper.send_to_llm, llm_wrapper.py lines 206 to 241) -/

/-- The interrupt tag block built by send_to_llm lines 213 to 216. -/
def interrupt_block (ctx : List String) : String :=
  ctx.foldl (fun acc e => acc ++ "<interrupt>" ++ e ++ "</interrupt>\n") ""

/-- The content of the user message sent by send_to_llm for a given
interrupt context, query text and retrieval context: the no-think suffix
of line 208, the interrupt block of lines 212 to 218, and the context
block override of lines 234 to 238. -/
def sendPromptContent (ctx : List String) (text context : String) : String :=
  let text1 := if ENABLE_THINK then text else text ++ " /no_think"
  let pm0 := if 0 < ctx.length then interrupt_block ctx else ""
  let interrupt_text := pm0 ++ text1
  let pm1 := if context ≠ "" then
      "<context>" ++ stripNewlines context ++ "</context>\n\n"
    else pm0
  pm1 ++ interrupt_text

/-- The generation tail of process_query (lines 250 to 255) together with
the call into generate_response; records the prompt content the LLM call
used. -/
def generation_step (st : IntelState) (env : IntelEnv) (text context : String)
    (acts : List ExtAction) : PQResult :=
  let prompt := sendPromptContent st.interrupt_context text context
  match generate_response env.llmResp env.llmCnt with
  | (response, intr) =>
    if intr then
      { response := "", interrupted := true,
        state := { st with interrupt_context := interrupt_actions st.interrupt_context text },
        actions := acts ++ [ExtAction.llmGenerate], genPrompt := some prompt }
    else
      { response := response, interrupted := false, state := st,
        actions := acts ++ [ExtAction.llmGenerate], genPrompt := some prompt }

/-- process_query from the preflight interrupt check on (lines 200 to
255): preflight abort, goodbye short circuit, retrieval, optional search,
then generation; every interrupt abort calls interrupt_actions. -/
def process_query_core (st : IntelState) (env : IntelEnv) (text : String)
    (is_goodbye : Bool) : PQResult :=
  if 0 < env.preflightCnt then
    { response := "", interrupted := true,
      state := { st with interrupt_context := interrupt_actions st.interrupt_context text },
      actions := [], genPrompt := none }
  else if is_goodbye then
    { response := goodbye_responses.getD env.goodbyeIdx.val "",
      interrupted := false, state := st, actions := [], genPrompt := none }
  else
    match query_rag env.ragCnt env.ragResults with
    | (query_results, has_confident_info) =>
      if 0 < env.afterRagCnt then
        { response := "", interrupted := true,
          state := { st with interrupt_context := interrupt_actions st.interrupt_context text },
          actions := [ExtAction.ragQuery], genPrompt := none }
      else if has_confident_info then
        generation_step st env text
          (query_results.foldl (fun acc r => acc ++ r.content) "")
          [ExtAction.ragQuery]
      else if ENABLE_WEBSEARCH then
        match decide_websearch_needed env.dwResult env.dwCnt with
        | (needs_search, _topic, intr) =>
          if intr then
            { response := "", interrupted := true,
              state := { st with interrupt_context := interrupt_actions st.interrupt_context text },
              actions := [ExtAction.ragQuery, ExtAction.llmDecide], genPrompt := none }
          else if needs_search then
            match perform_websearch env.wsDdgCnt env.wsFetchCnt env.wsDocCnts
                env.wsFinalCnt env.wsResults with
            | (search_results, intr2) =>
              if intr2 then
                { response := "", interrupted := true,
                  state := { st with interrupt_context := interrupt_actions st.interrupt_context text },
                  actions := [ExtAction.ragQuery, ExtAction.llmDecide, ExtAction.webSearch],
                  genPrompt := none }
              else
                generation_step st env text
                  (search_results.foldl (fun acc r => acc ++ r.content) "")
                  [ExtAction.ragQuery, ExtAction.llmDecide, ExtAction.webSearch]
          else generation_step st env text "" [ExtAction.ragQuery, ExtAction.llmDecide]
      else generation_step st env text "" [ExtAction.ragQuery]

/-- IntelligenceModule.process_query (lines 173 to 255): duplicate test,
tracking update, buildup clear, meaningfulness filter, continuation pop,
then the core pipeline. -/
def process_query (st : IntelState) (env : IntelEnv) (text : String)
    (continuation is_goodbye : Bool) : PQResult :=
  if duplicate_skip st env.current_time text continuation then
    { response := "", interrupted := false, state := st, actions := [], genPrompt := none }
  else
    let st1 := track_update st env.current_time text
    if meaningless_skip text continuation is_goodbye then
      { response := "", interrupted := false, state := st1, actions := [], genPrompt := none }
    else
      process_query_core (continuation_pop st1 continuation) env text is_goodbye

/-! ## The response worker loop (pipeline_orchestrator.py, pipeline_worker_func) -/

/-- The interruption flag of one round after the playback step
(lines 40 to 47): when process_query was not interrupted and produced a
non-empty response, synthesize_and_play runs and its result replaces the
flag. -/
def round_interrupted (r : PQResult) (playbackInterrupted : Bool) : Bool :=
  if !r.interrupted && r.response ≠ "" then playbackInterrupted else r.interrupted

/-- Result of handling one start item in pipeline_worker_func: the
counter value after the finish drain, the items put back onto the queue,
the log flags, the round results, the interrupt context as process_query
left it, and the module state after the unconditional clear of line 50. -/
structure StepResult where
  newCount : ℤ
  putBack : List Work
  warned : Bool
  timedOut : Bool
  response : String
  interrupted : Bool
  contextAfterQuery : List String
  intelAfter : IntelState
  deriving DecidableEq, Repr

/-- pipeline_worker_func handling of a start item (lines 39 to 70):
process_query, conditional playback, the unconditional interrupt-context
clear of line 50, then the finish drain with a bounded wait.  drain is
the outcome of the 100 millisecond queue read: some item, or none on the
Empty timeout.  c_drain is the value of the shared counter at the drain
site. -/
def worker_step_start (st : IntelState) (env : IntelEnv) (w : Work)
    (playbackInterrupted : Bool) (drain : Option Work) (c_drain : ℤ) : StepResult :=
  let r := process_query st env w.text w.continuation w.is_goodbye
  let intr := round_interrupted r playbackInterrupted
  let stCleared := { r.state with interrupt_context := ([] : List String) }
  match drain with
  | some fw =>
      if fw.marker = "finish" ∧ fw.text = w.text then
        { newCount := if intr then c_drain - 1 else c_drain, putBack := [],
          warned := false, timedOut := false, response := r.response,
          interrupted := intr, contextAfterQuery := r.state.interrupt_context,
          intelAfter := stCleared }
      else
        { newCount := c_drain, putBack := [fw], warned := true,
          timedOut := false, response := r.response, interrupted := intr,
          contextAfterQuery := r.state.interrupt_context, intelAfter := stCleared }
  | none =>
      { newCount := c_drain, putBack := [], warned := false, timedOut := true,
        response := r.response, interrupted := intr,
        contextAfterQuery := r.state.interrupt_context, intelAfter := stCleared }

/-- pipeline_worker_func handling of a finish item dequeued without a
preceding start (lines 72 to 75): decrement the counter when it is
positive. -/
def worker_step_finish (c : ℤ) : ℤ := if 0 < c then c - 1 else c

/-! ## Interruptible playback (src/utils.py) and the legacy loop (src/s2s_pipeline.py) -/

/-- The header data play_wav_file_interruptible reads from the wave file
(lines 111 to 115). -/
structure WavInfo where
  bits_per_sample : ℕ
  num_channels : ℕ
  num_samples : ℕ
  deriving DecidableEq, Repr

/-- play_wav_file_interruptible (utils.py lines 99 to 218) reduced to its
return value: the validation early exits of lines 121 to 134, then the
chunked write loop and the flush wait, each of which returns false as
soon as the interrupt event is observed set; true only on full
completion. -/
def play_wav_file_interruptible (wav : WavInfo)
    (interruptDuringLoop interruptDuringFlush : Bool) : Bool :=
  if wav.bits_per_sample ∉ ([8, 16, 24, 32] : List ℕ) then false
  else if wav.num_channels ≠ 1 then false
  else if wav.num_samples = 0 then false
  else if interruptDuringLoop then false
  else if interruptDuringFlush then false
  else true

/-- The tail of the legacy main loop after playback (s2s_pipeline.py
lines 218 to 241): on a completed playback a brief listen decides between
conversation mode with a pending command and wake-word mode; on a false
return the loop enters conversation mode directly.  Returns the new
conversation_mode flag and pending_text. -/
def main_loop_after_playback (playback_completed : Bool)
    (briefText : Option String) : Bool × Option String :=
  if playback_completed then
    match briefText with
    | some t => if t ≠ "" then (true, some t) else (false, none)
    | none => (false, none)
  else (true, none)

/-! ## Shared concrete sample inputs for witnesses and counterexamples -/

/-- A fresh IntelligenceModule state: empty last query, zero time, empty
interrupt context. -/
def stEmpty : IntelState := ⟨"", 0, []⟩

/-- An oracle in which every interrupt-counter read returns zero, the
retrieval store is empty, the classifier answers no, and the LLM streams
a response to completion. -/
def envZero : IntelEnv :=
  { current_time := 100, preflightCnt := 0, ragCnt := 0, afterRagCnt := 0,
    ragResults := [], dwResult := some ("no", "none"), dwCnt := 0,
    wsDdgCnt := 0, wsFetchCnt := 0, wsDocCnts := [], wsFinalCnt := 0,
    wsResults := [], llmResp := some "fine", llmCnt := 0, goodbyeIdx := 0 }

/-- Same oracle but the preflight interrupt check of process_query
line 200 observes a positive counter. -/
def envPre : IntelEnv := { envZero with preflightCnt := 1 }

/-- A start work item for the three-word query. -/
def wA : Work := ⟨"a b c", "start", false, false, 0⟩

/-- The matching finish item for wA. -/
def fwA : Work := ⟨"a b c", "finish", false, false, 0⟩

/-- A mismatched item: start marker, different text. -/
def wB : Work := ⟨"other", "start", false, false, 0⟩

/-! ## Claim C1 -/

/-- Claim C1, counterexample.  The claim states that the confirmed-FINISH
site inside the start-item handler is the only decrement point of the
interrupt counter.  The source has a second decrement site: the branch of
pipeline_worker_func lines 72 to 75 that handles a finish item dequeued
without a preceding start decrements the counter whenever it is positive.
At the concrete counter value one, that branch yields zero, so a
decrement occurs away from any FINISH confirmation. -/
theorem stray_finish_decrement_counterexample :
    worker_step_finish 1 = 0 ∧ worker_step_finish 1 ≠ 1 := by decide

/-- Claim C1, amended.  For a round whose drain obtained the matching
FINISH item (marker finish, same text): if the round was interrupted the
counter is decremented by exactly one at that confirmation, and, the
counter having been at least one there (it was observed positive during
the round and the response worker is the only decrementer), it stays
non-negative; an uninterrupted confirmed round leaves the counter
unchanged; the second decrement site, the stray-finish branch, only ever
decrements a positive counter, so it too never drives it negative. -/
theorem confirmed_finish_decrements_interrupted_round (st : IntelState)
    (env : IntelEnv) (w fw : Work) (pb : Bool) (c_drain : ℤ)
    (hm : fw.marker = "finish") (ht : fw.text = w.text)
    (hpos : 1 ≤ c_drain) :
    ((worker_step_start st env w pb (some fw) c_drain).interrupted = true →
        (worker_step_start st env w pb (some fw) c_drain).newCount = c_drain - 1
        ∧ 0 ≤ (worker_step_start st env w pb (some fw) c_drain).newCount)
    ∧ ((worker_step_start st env w pb (some fw) c_drain).interrupted = false →
        (worker_step_start st env w pb (some fw) c_drain).newCount = c_drain)
    ∧ (∀ c : ℤ, 0 ≤ c → 0 ≤ worker_step_finish c) := by
  refine ⟨?_, ?_, ?_⟩
  · intro hint
    simp only [worker_step_start, if_pos (And.intro hm ht)] at hint ⊢
    rw [hint]
    constructor
    · rfl
    · simp only [if_pos rfl]
      omega
  · intro hint
    simp only [worker_step_start, if_pos (And.intro hm ht)] at hint ⊢
    rw [hint]
    rfl
  · intro c hc
    unfold worker_step_finish
    split_ifs <;> omega

/-- Claim C1, witness: a concrete interrupted round whose matching finish
is drained with the counter at one ends with the counter at zero. -/
theorem confirmed_finish_decrements_interrupted_round_witness :
    (worker_step_start stEmpty envPre wA false (some fwA) 1).newCount = 1 - 1
    ∧ 0 ≤ (worker_step_start stEmpty envPre wA false (some fwA) 1).newCount := by
  have h := confirmed_finish_decrements_interrupted_round stEmpty envPre wA fwA
    false 1 rfl rfl (by norm_num)
  exact h.1 (by decide)

/-! ## Claim C2 -/

/-- Claim C2, counterexample.  The claim states that an interrupted round
decrements the counter on every exit path of the finish drain, including
the 100 millisecond timeout.  In the source the Empty handler of
pipeline_worker_func lines 67 and 68 only logs: at the concrete counter
value five, an interrupted round whose drain times out leaves the counter
at five, not four. -/
theorem drain_timeout_no_decrement_counterexample :
    (worker_step_start stEmpty envPre wA false none 5).interrupted = true
    ∧ (worker_step_start stEmpty envPre wA false none 5).newCount = 5
    ∧ (worker_step_start stEmpty envPre wA false none 5).newCount ≠ 5 - 1 := by decide

/-- Claim C2, amended.  For an interrupted round, the drain step itself
decrements only on the confirmed-match path: the timeout path and the
mismatch path leave the counter unchanged there.  Reconciliation of a
FINISH that arrives after the timeout happens instead in the stray-finish
branch of the worker loop, which decrements the counter by one whenever
it is positive, so the counter is not leaked by a late FINISH that is
eventually dequeued. -/
theorem interrupted_round_reconciliation_sites (st : IntelState)
    (env : IntelEnv) (w : Work) (pb : Bool) (c_drain : ℤ)
    (_hint : (worker_step_start st env w pb none c_drain).interrupted = true) :
    (worker_step_start st env w pb none c_drain).newCount = c_drain
    ∧ (∀ fw : Work, ¬(fw.marker = "finish" ∧ fw.text = w.text) →
        (worker_step_start st env w pb (some fw) c_drain).newCount = c_drain)
    ∧ (∀ c : ℤ, 0 < c → worker_step_finish c = c - 1) := by
  refine ⟨rfl, ?_, ?_⟩
  · intro fw hfw
    simp only [worker_step_start, if_neg hfw]
  · intro c hc
    unfold worker_step_finish
    rw [if_pos hc]

/-- Claim C2, witness: a concrete interrupted round whose drain times out
keeps the counter at five, and a stray finish dequeued at five brings it
to four. -/
theorem interrupted_round_reconciliation_sites_witness :
    (worker_step_start stEmpty envPre wA false none 5).newCount = 5
    ∧ worker_step_finish 5 = 5 - 1 := by
  have h := interrupted_round_reconciliation_sites stEmpty envPre wA false 5 (by decide)
  exact ⟨h.1, h.2.2 5 (by norm_num)⟩

/-! ## Claim C5 -/

/-- Claim C5.  After fully processing a start item the worker retrieves
exactly one further queue item with a bounded wait (the drain input
models the single 100 millisecond read of line 54): when the item is not
the finish marker for the same text it is put back onto the queue and a
warning is raised, with the counter untouched; when the read times out an
error is logged (timedOut) and the step still returns normally, with
nothing put back and the counter untouched. -/
theorem finish_drain_mismatch_and_timeout (st : IntelState) (env : IntelEnv)
    (w : Work) (pb : Bool) (c : ℤ) :
    (∀ fw : Work, ¬(fw.marker = "finish" ∧ fw.text = w.text) →
        (worker_step_start st env w pb (some fw) c).putBack = [fw]
        ∧ (worker_step_start st env w pb (some fw) c).warned = true
        ∧ (worker_step_start st env w pb (some fw) c).newCount = c)
    ∧ (worker_step_start st env w pb none c).timedOut = true
    ∧ (worker_step_start st env w pb none c).putBack = []
    ∧ (worker_step_start st env w pb none c).newCount = c := by
  refine ⟨?_, rfl, rfl, rfl⟩
  intro fw hfw
  simp only [worker_step_start, if_neg hfw]
  exact ⟨trivial, trivial, by simp [round_interrupted]⟩

/-- Claim C5, witness: a concrete mismatched item is requeued with a
warning, and a concrete timeout leaves the step with the timedOut flag. -/
theorem finish_drain_mismatch_and_timeout_witness :
    (worker_step_start stEmpty envZero wA false (some wB) 7).putBack = [wB]
    ∧ (worker_step_start stEmpty envZero wA false (some wB) 7).warned = true
    ∧ (worker_step_start stEmpty envZero wA false none 7).timedOut = true := by
  have h := finish_drain_mismatch_and_timeout stEmpty envZero wA false 7
  exact ⟨(h.1 wB (by decide)).1, (h.1 wB (by decide)).2.1, h.2.1⟩

/-! ## Claim C4 -/

/-- The concrete barge-in scenario: the capture worker must hear the wake
word (ask_wakeword true), and the command queue is non-empty when the
guard of run_loop line 105 runs. -/
def envBarge : LoopEnv :=
  { nowReset := 10, nowWake := 10, queueNonempty := true, hasSpeech := true,
    command_duration := 1, transcript := "a b c", nowCont1 := 10,
    nowCont2 := 10, nowStart := 10 }

/-- Claim C4 (a code bug).  The claim and the spec say a wake-word
detection while the command queue is non-empty increments the interrupt
counter exactly once.  In the source, listen_for_wake_word (line 38)
clears ask_wakeword before the barge-in guard of line 105 tests it, so
the guard condition is false on every path and the increment of line 107
is unreachable: no capture-loop iteration ever changes the counter.  In
the concrete barge-in scenario (wake word awaited and detected, queue
non-empty) the iteration applies a zero delta where the claim requires
one. -/
theorem barge_in_increment_never_fires :
    (∀ (st : VoiceState) (env : LoopEnv), (run_loop_iter st env).countDelta = 0)
    ∧ (run_loop_iter ⟨false, true, 0, ""⟩ envBarge).awaitedWake = true
    ∧ envBarge.queueNonempty = true
    ∧ (run_loop_iter ⟨false, true, 0, ""⟩ envBarge).countDelta = 0 := by
  have hlisten : ∀ (st : VoiceState) (n : ℚ), (listen_step st n).ask_wakeword = false := by
    intro st n
    unfold listen_step
    cases h : st.ask_wakeword <;> simp [h]
  have h1 : ∀ (st : VoiceState) (env : LoopEnv), (run_loop_iter st env).countDelta = 0 := by
    intro st env
    simp only [run_loop_iter]
    rw [hlisten]
    rfl
  refine ⟨h1, ?_, rfl, h1 _ _⟩
  have hup : ∀ (st : VoiceState) (n : ℚ), st.ask_wakeword = true →
      (wakeword_reset_step st n).ask_wakeword = true := by
    intro st n h
    unfold wakeword_reset_step
    split <;> simp [h]
  exact hup _ _ rfl

/-! ## Claim C9 -/

/-- Claim C9.  play_wav_file_interruptible returns true exactly when the
file is well formed (supported bit depth, mono, at least one sample) and
no interrupt was observed in the write loop or the flush wait; hence it
returns the same false for a barge-in and for a malformed synthesized
file, and the legacy main loop maps any false return to conversation
mode. -/
theorem playback_false_merges_malformed_and_interrupted (wav : WavInfo)
    (iL iF : Bool) :
    (play_wav_file_interruptible wav iL iF = true ↔
      (wav.bits_per_sample ∈ ([8, 16, 24, 32] : List ℕ) ∧ wav.num_channels = 1
        ∧ wav.num_samples ≠ 0 ∧ iL = false ∧ iF = false))
    ∧ ∀ briefText : Option String, (main_loop_after_playback false briefText).1 = true := by
  constructor
  · unfold play_wav_file_interruptible
    split_ifs with h1 h2 h3 h4 h5 <;> simp_all
  · intro bt
    rfl

/-- Claim C9, witness: a 12-bit mono file with samples and no interrupt
returns false exactly as an interrupt would, and a false return puts the
legacy loop in conversation mode. -/
theorem playback_false_merges_malformed_and_interrupted_witness :
    play_wav_file_interruptible ⟨12, 1, 5⟩ false false = false
    ∧ (main_loop_after_playback false none).1 = true := by
  have h := playback_false_merges_malformed_and_interrupted ⟨12, 1, 5⟩ false false
  constructor
  · cases hp : play_wav_file_interruptible ⟨12, 1, 5⟩ false false
    · rfl
    · exact absurd (h.1.mp hp).1 (by decide)
  · exact h.2 none

/-! ## Shared facts about process_query -/

/-- When the duplicate test fires, process_query returns immediately with
the empty response, the not-interrupted flag, an untouched state, no
collaborator calls and no prompt. -/
theorem process_query_duplicate (st : IntelState) (env : IntelEnv)
    (text : String) (gb : Bool)
    (hdup : duplicate_skip st env.current_time text false = true) :
    process_query st env text false gb
      = { response := "", interrupted := false, state := st, actions := [],
          genPrompt := none } := by
  simp [process_query, hdup]

/-- When the duplicate test does not fire and the meaningfulness filter
rejects the text, process_query returns empty with only the tracking
update applied. -/
theorem process_query_meaningless (st : IntelState) (env : IntelEnv)
    (text : String) (cont gb : Bool)
    (hd : duplicate_skip st env.current_time text cont = false)
    (hm : meaningless_skip text cont gb = true) :
    process_query st env text cont gb
      = { response := "", interrupted := false,
          state := track_update st env.current_time text, actions := [],
          genPrompt := none } := by
  simp [process_query, hd, hm]

/-- track_update records the raw text and the call time. -/
theorem track_update_tracking (st : IntelState) (ct : ℚ) (text : String) :
    (track_update st ct text).last_processed_query = text
    ∧ (track_update st ct text).last_processed_time = ct := by
  simp only [track_update]
  split <;> exact ⟨rfl, rfl⟩

/-- continuation_pop leaves the duplicate-tracking fields alone. -/
theorem continuation_pop_tracking (st : IntelState) (cont : Bool) :
    (continuation_pop st cont).last_processed_query = st.last_processed_query
    ∧ (continuation_pop st cont).last_processed_time = st.last_processed_time := by
  unfold continuation_pop
  split <;> exact ⟨rfl, rfl⟩

/-- generation_step leaves the duplicate-tracking fields alone. -/
theorem generation_step_tracking (st : IntelState) (env : IntelEnv)
    (text context : String) (acts : List ExtAction) :
    (generation_step st env text context acts).state.last_processed_query
      = st.last_processed_query
    ∧ (generation_step st env text context acts).state.last_processed_time
      = st.last_processed_time := by
  unfold generation_step
  rcases h : generate_response env.llmResp env.llmCnt with ⟨resp, intr⟩
  simp only [h]
  split <;> exact ⟨rfl, rfl⟩

/-- The core pipeline leaves the duplicate-tracking fields alone. -/
theorem process_query_core_tracking (st : IntelState) (env : IntelEnv)
    (text : String) (gb : Bool) :
    (process_query_core st env text gb).state.last_processed_query
      = st.last_processed_query
    ∧ (process_query_core st env text gb).state.last_processed_time
      = st.last_processed_time := by
  unfold process_query_core
  rcases hq : query_rag env.ragCnt env.ragResults with ⟨qr, conf⟩
  rcases hdw : decide_websearch_needed env.dwResult env.dwCnt with ⟨needs, topic, intr⟩
  rcases hws : perform_websearch env.wsDdgCnt env.wsFetchCnt env.wsDocCnts
      env.wsFinalCnt env.wsResults with ⟨sr, intr2⟩
  simp only [hq, hdw, hws]
  split_ifs <;>
    first
      | exact ⟨rfl, rfl⟩
      | apply generation_step_tracking

/-- After any process_query call that is not skipped as a duplicate, the
tracking fields hold the raw text and the call time, on every path. -/
theorem process_query_tracking (st : IntelState) (env : IntelEnv)
    (text : String) (cont gb : Bool)
    (hd : duplicate_skip st env.current_time text cont = false) :
    (process_query st env text cont gb).state.last_processed_query = text
    ∧ (process_query st env text cont gb).state.last_processed_time = env.current_time := by
  simp only [process_query, hd, Bool.false_eq_true, if_false]
  cases hm : meaningless_skip text cont gb
  · simp only [Bool.false_eq_true, if_false]
    have h1 := process_query_core_tracking
      (continuation_pop (track_update st env.current_time text) cont) env text gb
    have h2 := continuation_pop_tracking (track_update st env.current_time text) cont
    have h3 := track_update_tracking st env.current_time text
    exact ⟨by rw [h1.1, h2.1, h3.1], by rw [h1.2, h2.2, h3.2]⟩
  · simp only [if_true]
    exact track_update_tracking st env.current_time text

/-! ## Claim C6 -/

/-- Claim C6.  A process_query call whose text equals the last processed
text after strip and lower normalization, arriving under two seconds
after that processing and not marked as a continuation, returns the empty
response and the not-interrupted flag, leaves the module state untouched,
attempts no retrieval, search or generation call and sends no prompt; a
worker round built on such a call still drains the matching finish item:
nothing is put back, no warning, and the counter is unchanged. -/
theorem duplicate_query_is_skipped (st : IntelState) (env : IntelEnv)
    (text : String) (gb : Bool)
    (h1 : pyLower (pyStrip text) = pyLower (pyStrip st.last_processed_query))
    (h2 : env.current_time - st.last_processed_time < 2) :
    process_query st env text false gb
      = { response := "", interrupted := false, state := st, actions := [],
          genPrompt := none }
    ∧ ∀ (w fw : Work) (pb : Bool) (c : ℤ), w.text = text → w.continuation = false →
        w.is_goodbye = gb → fw.marker = "finish" → fw.text = w.text →
        (worker_step_start st env w pb (some fw) c).putBack = []
        ∧ (worker_step_start st env w pb (some fw) c).warned = false
        ∧ (worker_step_start st env w pb (some fw) c).newCount = c := by
  have hdup : duplicate_skip st env.current_time text false = true := by
    unfold duplicate_skip
    rw [h1]
    simp [h2]
  have hq := process_query_duplicate st env text gb hdup
  refine ⟨hq, ?_⟩
  intro w fw pb c hwt hwc hwg hfm hft
  have hq2 : process_query st env w.text w.continuation w.is_goodbye
      = { response := "", interrupted := false, state := st, actions := [],
          genPrompt := none } := by
    rw [hwt, hwc, hwg]
    exact hq
  simp only [worker_step_start, hq2, if_pos (And.intro hfm hft)]
  exact ⟨trivial, trivial, by simp [round_interrupted]⟩

/-- The state for the duplicate witness: Hello was just processed at
time ten. -/
def stDup : IntelState := ⟨"Hello", 10, []⟩

/-- The oracle for the duplicate witness: the identical query arrives at
time eleven. -/
def envDup : IntelEnv := { envZero with current_time := 11 }

/-- The start item resubmitting the normalized duplicate. -/
def wDup : Work := ⟨"hello ", "start", false, false, 0⟩

/-- The matching finish item for wDup. -/
def fwDup : Work := ⟨"hello ", "finish", false, false, 0⟩

/-- Claim C6, witness: resubmitting hello with extra whitespace and case
one second after Hello yields the empty skip result, and the worker
still drains the finish with the counter unchanged. -/
theorem duplicate_query_is_skipped_witness :
    process_query stDup envDup "hello " false false
      = { response := "", interrupted := false, state := stDup, actions := [],
          genPrompt := none }
    ∧ (worker_step_start stDup envDup wDup false (some fwDup) 3).putBack = []
    ∧ (worker_step_start stDup envDup wDup false (some fwDup) 3).newCount = 3 := by
  have h := duplicate_query_is_skipped stDup envDup "hello " false (by decide)
    (by norm_num [envDup, envZero, stDup])
  exact ⟨h.1, (h.2 wDup fwDup false 3 rfl rfl rfl rfl rfl).1,
    (h.2 wDup fwDup false 3 rfl rfl rfl rfl rfl).2.2⟩

/-! ## Claim C10 -/

/-- Claim C10.  process_query updates its duplicate-tracking state before
the meaningfulness filter and the interrupt checks run: on every path
that passes the duplicate test the state records the raw text and the
call time, even when the call then exits through the meaningless skip;
consequently a second call with the identical text, under two seconds
later and not a continuation, is skipped as a duplicate although the
first call produced no response. -/
theorem tracking_armed_before_filters (st : IntelState) (env : IntelEnv)
    (text : String) (cont gb : Bool)
    (hd : duplicate_skip st env.current_time text cont = false) :
    (process_query st env text cont gb).state.last_processed_query = text
    ∧ (process_query st env text cont gb).state.last_processed_time = env.current_time
    ∧ (meaningless_skip text cont gb = true →
        process_query st env text cont gb
          = { response := "", interrupted := false,
              state := track_update st env.current_time text, actions := [],
              genPrompt := none })
    ∧ ∀ (env2 : IntelEnv) (gb2 : Bool), env2.current_time - env.current_time < 2 →
        process_query (process_query st env text cont gb).state env2 text false gb2
          = { response := "", interrupted := false,
              state := (process_query st env text cont gb).state, actions := [],
              genPrompt := none } := by
  have ht := process_query_tracking st env text cont gb hd
  refine ⟨ht.1, ht.2, fun hm => process_query_meaningless st env text cont gb hd hm, ?_⟩
  intro env2 gb2 h2
  apply process_query_duplicate
  unfold duplicate_skip
  rw [ht.1, ht.2]
  simp [h2]

/-! ## Claim C7 -/

/-- Claim C7.  In any capture iteration that recorded speech and produced
a transcript, if the emitted text contains a goodbye phrase then, in the
same iteration that enqueued the start and finish items, the conversation
state is reset: ask_wakeword becomes true, the stored previous text is
cleared, the first-iteration flag is set, and the two items were emitted
unconditionally before the reset (the capture side consumes nothing from
the response pipeline, so it does not wait for that round to finish). -/
theorem goodbye_resets_capture_state (st : VoiceState) (env : LoopEnv)
    (hs : env.hasSpeech = true) (ht : env.transcript ≠ "") :
    ∀ w ∈ (run_loop_iter st env).emitted, is_goodbye_phrase w.text = true →
      (run_loop_iter st env).state.ask_wakeword = true
      ∧ (run_loop_iter st env).state.prev_text = ""
      ∧ (run_loop_iter st env).state.first_loop = true
      ∧ ∃ ws wf : Work, (run_loop_iter st env).emitted = [ws, wf]
          ∧ ws.marker = "start" ∧ wf.marker = "finish"
          ∧ wf.text = ws.text ∧ ws.is_goodbye = true := by
  intro w hw hg
  have hstate : (run_loop_iter st env).state
      = (run_loop_command_phase (listen_step (wakeword_reset_step st env.nowReset)
          env.nowWake) env).1 := rfl
  have hemit : (run_loop_iter st env).emitted
      = (run_loop_command_phase (listen_step (wakeword_reset_step st env.nowReset)
          env.nowWake) env).2 := rfl
  set stB := listen_step (wakeword_reset_step st env.nowReset) env.nowWake with hB
  rcases hpc : process_text_continuation stB env.transcript env.command_duration
      env.nowCont1 env.nowCont2 with ⟨⟨text, cont⟩, st1⟩
  have hphase : run_loop_command_phase stB env
      = (if is_goodbye_phrase text then (⟨true, true, 0, ""⟩ : VoiceState) else st1,
         [⟨text, "start", cont, is_goodbye_phrase text, env.nowStart⟩,
          ⟨text, "finish", cont, is_goodbye_phrase text, env.nowStart⟩]) := by
    simp [run_loop_command_phase, hs, ht, hpc]
  rw [hemit, hphase] at hw
  have hwt : w.text = text := by
    rcases List.mem_cons.mp hw with h | h
    · rw [h]
    · rcases List.mem_cons.mp h with h2 | h2
      · rw [h2]
      · exact absurd h2 (List.not_mem_nil w)
  rw [hwt] at hg
  refine ⟨?_, ?_, ?_, ?_⟩
  · rw [hstate, hphase]
    simp [hg]
  · rw [hstate, hphase]
    simp [hg]
  · rw [hstate, hphase]
    simp [hg]
  · exact ⟨⟨text, "start", cont, is_goodbye_phrase text, env.nowStart⟩,
      ⟨text, "finish", cont, is_goodbye_phrase text, env.nowStart⟩,
      by rw [hemit, hphase], rfl, rfl, rfl, hg⟩

/-- The capture state for the goodbye witness: first iteration, wake
word required. -/
def stWake : VoiceState := ⟨true, false, 0, ""⟩

/-- The capture oracle for the goodbye witness: speech recorded, the
transcript is the word goodbye. -/
def envBye : LoopEnv :=
  { nowReset := 0, nowWake := 0, queueNonempty := false, hasSpeech := true,
    command_duration := 1, transcript := "goodbye", nowCont1 := 0,
    nowCont2 := 0, nowStart := 0 }

/-- Claim C7, witness: the concrete goodbye iteration resets the state
and emits the start and finish pair. -/
theorem goodbye_resets_capture_state_witness :
    (run_loop_iter stWake envBye).state.ask_wakeword = true
    ∧ (run_loop_iter stWake envBye).state.prev_text = ""
    ∧ ∃ ws wf : Work, (run_loop_iter stWake envBye).emitted = [ws, wf]
        ∧ ws.marker = "start" ∧ wf.marker = "finish"
        ∧ wf.text = ws.text ∧ ws.is_goodbye = true := by
  have hc : ¬ (WAKEWORD_RESET_TIME < envBye.nowReset - stWake.last_command_time) := by
    norm_num [stWake, envBye, WAKEWORD_RESET_TIME]
  have hA : wakeword_reset_step stWake envBye.nowReset = stWake := by
    unfold wakeword_reset_step
    rw [if_neg hc]
  have hBl : listen_step stWake envBye.nowWake = stWake := rfl
  have hrun : (run_loop_iter stWake envBye).emitted
      = (run_loop_command_phase stWake envBye).2 := by
    simp only [run_loop_iter, hA, hBl]
  have hphase2 : (run_loop_command_phase stWake envBye).2
      = [⟨"goodbye", "start", false, true, 0⟩,
         ⟨"goodbye", "finish", false, true, 0⟩] := by decide
  have hmem : (⟨"goodbye", "start", false, true, 0⟩ : Work)
      ∈ (run_loop_iter stWake envBye).emitted := by
    rw [hrun, hphase2]
    exact List.mem_cons_self _ _
  have h := goodbye_resets_capture_state stWake envBye rfl (by decide)
    ⟨"goodbye", "start", false, true, 0⟩ hmem (by decide)
  exact ⟨h.1, h.2.1, h.2.2.2⟩

/-! ## Claim C8 -/

/-- Claim C8.  When the reset timeout is enabled (it is nonzero in the
configuration), the iteration is not the first, the wake word is not
awaited, no reset fires, and the gap between the merge-time clock
(adjusted by the command duration) and last_command_time is below the
continuation threshold, the emitted start item carries the previous text
concatenated with a comma, a space and the new transcript, with the
continuation flag set; and a single utterance whose transcript is already
that concatenation yields the same downstream text, so utterance A plus a
quick follow-up B match the single utterance A comma B. -/
theorem continuation_merge_matches_single_utterance (st : VoiceState)
    (env : LoopEnv)
    (hr : ¬ (WAKEWORD_RESET_TIME < env.nowReset - st.last_command_time))
    (hw : st.ask_wakeword = false)
    (hf : st.first_loop = false)
    (hc : env.nowCont1 - env.command_duration - st.last_command_time
        < CONTINUATION_THRESHOLD)
    (hs : env.hasSpeech = true) (ht : env.transcript ≠ "") :
    (∃ ws wf : Work, (run_loop_iter st env).emitted = [ws, wf]
        ∧ ws.text = st.prev_text ++ ", " ++ env.transcript
        ∧ ws.continuation = true
        ∧ wf.text = ws.text ∧ wf.continuation = true)
    ∧ ∀ (stF : VoiceState) (A B : String) (d n1 n2 : ℚ), stF.first_loop = true →
        ((process_text_continuation stF (A ++ ", " ++ B) d n1 n2).1).1
          = A ++ ", " ++ B := by
  constructor
  · have hA : wakeword_reset_step st env.nowReset = st := by
      unfold wakeword_reset_step
      rw [if_neg hr]
    have hBl : listen_step st env.nowWake = st := by
      unfold listen_step
      rw [hw]
      simp
    have hmerge : (decide (0 < WAKEWORD_RESET_TIME) && !st.first_loop
        && decide (env.nowCont1 - env.command_duration - st.last_command_time
            < CONTINUATION_THRESHOLD)) = true := by
      rw [hf]
      simp only [Bool.not_false, Bool.and_true]
      rw [decide_eq_true hc]
      simp only [Bool.and_true]
      rw [decide_eq_true]
      rw [WAKEWORD_RESET_TIME]
      norm_num
    have hpc1 : (process_text_continuation st env.transcript env.command_duration
        env.nowCont1 env.nowCont2).1 = (st.prev_text ++ ", " ++ env.transcript, true) := by
      unfold process_text_continuation
      simp only [hmerge, if_true]
    rcases hpc : process_text_continuation st env.transcript env.command_duration
        env.nowCont1 env.nowCont2 with ⟨⟨text, cont⟩, st1⟩
    rw [hpc] at hpc1
    simp only [Prod.mk.injEq] at hpc1
    have hemit : (run_loop_iter st env).emitted
        = (run_loop_command_phase st env).2 := by
      simp only [run_loop_iter, hA, hBl]
    have hphase : (run_loop_command_phase st env).2
        = [⟨text, "start", cont, is_goodbye_phrase text, env.nowStart⟩,
           ⟨text, "finish", cont, is_goodbye_phrase text, env.nowStart⟩] := by
      simp [run_loop_command_phase, hs, ht, hpc]
    refine ⟨⟨text, "start", cont, is_goodbye_phrase text, env.nowStart⟩,
      ⟨text, "finish", cont, is_goodbye_phrase text, env.nowStart⟩,
      by rw [hemit, hphase], hpc1.1, hpc1.2, hpc1.1.symm ▸ rfl, hpc1.2⟩
  · intro stF A B d n1 n2 hfl
    unfold process_text_continuation
    have hm0 : (decide (0 < WAKEWORD_RESET_TIME) && !stF.first_loop
        && decide (n1 - d - stF.last_command_time < CONTINUATION_THRESHOLD)) = false := by
      rw [hfl]
      simp
    simp only [hm0, Bool.false_eq_true, if_false]

/-- The capture state for the continuation witness: not the first
iteration, no wake word awaited, previous text a. -/
def stCont : VoiceState := ⟨false, false, 0, "a"⟩

/-- The capture oracle for the continuation witness: follow-up b arrives
inside the continuation threshold. -/
def envCont : LoopEnv :=
  { nowReset := 0, nowWake := 0, queueNonempty := false, hasSpeech := true,
    command_duration := 0, transcript := "b", nowCont1 := 0, nowCont2 := 0,
    nowStart := 0 }

/-- Claim C8, witness: utterance a followed by a quick b emits the merged
continuation text, equal to the text of a single utterance a comma b. -/
theorem continuation_merge_matches_single_utterance_witness :
    (∃ ws wf : Work, (run_loop_iter stCont envCont).emitted = [ws, wf]
        ∧ ws.text = "a" ++ ", " ++ "b" ∧ ws.continuation = true
        ∧ wf.text = ws.text ∧ wf.continuation = true)
    ∧ ((process_text_continuation ⟨true, false, 0, ""⟩ ("a" ++ ", " ++ "b") 0 0 0).1).1
        = "a" ++ ", " ++ "b" := by
  have h := continuation_merge_matches_single_utterance stCont envCont
    (by norm_num [stCont, envCont, WAKEWORD_RESET_TIME]) rfl rfl
    (by
      have h1 : (0:ℚ) < CONTINUATION_THRESHOLD := by decide
      have h2 : envCont.nowCont1 - envCont.command_duration
          - stCont.last_command_time = (0:ℚ) := by norm_num [envCont, stCont]
      rw [h2]
      exact h1) rfl (by decide)
  refine ⟨?_, h.2 ⟨true, false, 0, ""⟩ "a" "b" 0 0 0 rfl⟩
  obtain ⟨ws, wf, h1, h2, h3, h4, h5⟩ := h.1
  exact ⟨ws, wf, h1, by rw [h2]; rfl, h3, h4, h5⟩

/-! ## Claim C3 -/

/-- interrupt_actions always leaves the text present in the context. -/
theorem mem_interrupt_actions_self (ctx : List String) (t : String) :
    t ∈ interrupt_actions ctx t := by
  unfold interrupt_actions
  split
  case isTrue h => exact List.mem_of_elem_eq_true h
  case isFalse h => exact List.mem_append_right _ (List.mem_singleton.mpr rfl)

/-- interrupt_actions suppresses duplicates: a text already present is
not appended again. -/
theorem interrupt_actions_dedup (ctx : List String) (t : String) (h : t ∈ ctx) :
    interrupt_actions ctx t = ctx := by
  unfold interrupt_actions
  rw [if_pos (List.elem_eq_true_of_mem h)]

/-- When neither the duplicate test nor the meaningfulness filter fires
and the preflight check observes a positive counter, process_query aborts
with the text pushed through interrupt_actions. -/
theorem process_query_preflight_abort (st : IntelState) (env : IntelEnv)
    (text : String) (cont gb : Bool)
    (hd : duplicate_skip st env.current_time text cont = false)
    (hm : meaningless_skip text cont gb = false)
    (hp : 0 < env.preflightCnt) :
    process_query st env text cont gb
      = { response := "", interrupted := true,
          state := { continuation_pop (track_update st env.current_time text) cont with
                     interrupt_context :=
                       interrupt_actions
                         (continuation_pop (track_update st env.current_time text)
                           cont).interrupt_context text },
          actions := [], genPrompt := none } := by
  simp [process_query, hd, hm, process_query_core, hp]

/-- The user message content of a generation call made with an empty
interrupt context carries no interrupt block: only the optional context
block and the text with the no-think suffix. -/
theorem sendPromptContent_nil (t c2 : String) :
    sendPromptContent [] t c2
      = (if c2 ≠ "" then "<context>" ++ stripNewlines c2 ++ "</context>\n\n" else "")
        ++ (t ++ " /no_think") := by
  unfold sendPromptContent interrupt_block ENABLE_THINK
  by_cases hc2 : c2 = "" <;> simp [hc2]

/-- Claim C3, counterexample.  The claim states that the text appended on
an interrupt abort is reinjected, wrapped in interrupt tags, into the
prompt of the next generation call.  In the source the worker clears
interrupt_context unconditionally after every round
(pipeline_orchestrator.py line 50): the concrete aborted round appends
its text a b c, the round ends with the context empty, and the next
generation call sends the prompt d e f /no_think, which does not contain
the tagged text. -/
theorem interrupt_reinjection_counterexample :
    (worker_step_start stEmpty envPre wA false (some fwA) 1).interrupted = true
    ∧ (worker_step_start stEmpty envPre wA false (some fwA) 1).contextAfterQuery
        = ["a b c"]
    ∧ (worker_step_start stEmpty envPre wA false (some fwA) 1).intelAfter.interrupt_context
        = []
    ∧ (process_query (worker_step_start stEmpty envPre wA false (some fwA) 1).intelAfter
        envZero "d e f" false false).genPrompt = some "d e f /no_think"
    ∧ containsSub "d e f /no_think" "<interrupt>a b c</interrupt>" = false := by
  decide

/-- generation_step either reports no interruption or has pushed the
text through interrupt_actions onto the interrupt context. -/
theorem generation_step_append_or_not (st : IntelState) (env : IntelEnv)
    (text context : String) (acts : List ExtAction) :
    (generation_step st env text context acts).interrupted = false
    ∨ (generation_step st env text context acts).state.interrupt_context
        = interrupt_actions st.interrupt_context text := by
  unfold generation_step
  rcases generate_response env.llmResp env.llmCnt with ⟨resp, intr⟩
  cases intr
  · exact Or.inl rfl
  · exact Or.inr rfl

/-- The core pipeline either returns without an interruption or, at
whichever checkpoint fired (preflight, after the retrieval query, at the
websearch decision, inside the websearch, or at the generation call), has
pushed the text through interrupt_actions onto the interrupt context. -/
theorem process_query_core_append_or_not (st : IntelState) (env : IntelEnv)
    (text : String) (gb : Bool) :
    (process_query_core st env text gb).interrupted = false
    ∨ (process_query_core st env text gb).state.interrupt_context
        = interrupt_actions st.interrupt_context text := by
  unfold process_query_core
  rcases query_rag env.ragCnt env.ragResults with ⟨qr, conf⟩
  rcases decide_websearch_needed env.dwResult env.dwCnt with ⟨needs, topic, intr⟩
  rcases perform_websearch env.wsDdgCnt env.wsFetchCnt env.wsDocCnts
      env.wsFinalCnt env.wsResults with ⟨sr, intr2⟩
  dsimp only
  split_ifs <;>
    first
      | exact Or.inl rfl
      | exact Or.inr rfl
      | exact generation_step_append_or_not _ _ _ _ _

/-- Every interrupted exit of process_query pushes the text through
interrupt_actions onto the interrupt context, over the state as it stood
after the tracking update and the continuation pop (the duplicate and
meaningless skips and the goodbye path never report an interruption). -/
theorem process_query_interrupted_append (st : IntelState) (env : IntelEnv)
    (text : String) (cont gb : Bool)
    (hint : (process_query st env text cont gb).interrupted = true) :
    (process_query st env text cont gb).state.interrupt_context
      = interrupt_actions
          (continuation_pop (track_update st env.current_time text)
            cont).interrupt_context text := by
  unfold process_query at hint ⊢
  cases hd : duplicate_skip st env.current_time text cont
  · simp only [hd, Bool.false_eq_true, if_false] at hint ⊢
    cases hm : meaningless_skip text cont gb
    · simp only [hm, Bool.false_eq_true, if_false] at hint ⊢
      rcases process_query_core_append_or_not
          (continuation_pop (track_update st env.current_time text) cont)
          env text gb with h | h
      · rw [h] at hint
        simp at hint
      · exact h
    · rw [hm] at hint
      simp at hint
  · rw [hd] at hint
    simp at hint

/-- Claim C3, amended.  Whenever process_query aborts because it observed
interruptCount > 0 — at the preflight check, after the retrieval query,
at the websearch decision, inside the websearch, or at the generation
call — the query text is appended to the interrupt context with
duplicates suppressed and the round reports interrupted; but the worker
clears the context unconditionally at the end of the same round, and a
generation call whose interrupt context is empty builds a prompt with no
interrupt block, so the next generation call does not carry the aborted
text. -/
theorem interrupt_context_append_and_round_clear (st : IntelState)
    (env : IntelEnv) (w : Work) (pb : Bool) (drain : Option Work) (c : ℤ)
    (hint : (process_query st env w.text w.continuation w.is_goodbye).interrupted = true) :
    (process_query st env w.text w.continuation w.is_goodbye).state.interrupt_context
        = interrupt_actions
            (continuation_pop (track_update st env.current_time w.text)
              w.continuation).interrupt_context w.text
    ∧ w.text ∈ (process_query st env w.text w.continuation w.is_goodbye).state.interrupt_context
    ∧ (worker_step_start st env w pb drain c).interrupted = true
    ∧ (worker_step_start st env w pb drain c).contextAfterQuery
        = (process_query st env w.text w.continuation w.is_goodbye).state.interrupt_context
    ∧ (worker_step_start st env w pb drain c).intelAfter.interrupt_context = []
    ∧ (∀ (ctx : List String) (t : String), t ∈ ctx → interrupt_actions ctx t = ctx)
    ∧ ∀ t c2 : String, sendPromptContent [] t c2
        = (if c2 ≠ "" then "<context>" ++ stripNewlines c2 ++ "</context>\n\n" else "")
          ++ (t ++ " /no_think") := by
  have happ := process_query_interrupted_append st env w.text w.continuation w.is_goodbye hint
  have hri : round_interrupted (process_query st env w.text w.continuation w.is_goodbye) pb
      = true := by
    unfold round_interrupted
    rw [hint]
    simp
  refine ⟨happ, ?_, ?_, ?_, ?_, fun ctx t h => interrupt_actions_dedup ctx t h,
    fun t c2 => sendPromptContent_nil t c2⟩
  · rw [happ]
    exact mem_interrupt_actions_self _ _
  · cases drain with
    | none => exact hri
    | some fw =>
      by_cases hfw : fw.marker = "finish" ∧ fw.text = w.text
      · simp only [worker_step_start, if_pos hfw]
        exact hri
      · simp only [worker_step_start, if_neg hfw]
        exact hri
  · cases drain with
    | none => rfl
    | some fw =>
      by_cases hfw : fw.marker = "finish" ∧ fw.text = w.text
      · simp only [worker_step_start, if_pos hfw]
      · simp only [worker_step_start, if_neg hfw]
  · cases drain with
    | none => rfl
    | some fw =>
      by_cases hfw : fw.marker = "finish" ∧ fw.text = w.text
      · simp only [worker_step_start, if_pos hfw]
      · simp only [worker_step_start, if_neg hfw]

/-- The oracle for the generation-abort witness: every counter read is
zero but the LLM stream is cut by an interrupt, so generate_response
reports the abort. -/
def envGen : IntelEnv := { envZero with llmResp := none }

/-- Claim C3, witness: a concrete round aborted at the generation call
(not at preflight) appends its text before the clear, the round reports
interrupted, the round ends with an empty context, and the empty-context
prompt of the next generation call carries no interrupt block. -/
theorem interrupt_context_append_and_round_clear_witness :
    "a b c" ∈ (process_query stEmpty envGen wA.text wA.continuation
        wA.is_goodbye).state.interrupt_context
    ∧ (worker_step_start stEmpty envGen wA false none 0).interrupted = true
    ∧ (worker_step_start stEmpty envGen wA false none 0).intelAfter.interrupt_context = []
    ∧ sendPromptContent [] "d e f" ""
        = (if ("" : String) ≠ "" then "<context>" ++ stripNewlines "" ++ "</context>\n\n" else "")
          ++ ("d e f" ++ " /no_think") := by
  have h := interrupt_context_append_and_round_clear stEmpty envGen wA false none 0
    (by decide)
  exact ⟨h.2.1, h.2.2.1, h.2.2.2.2.1, h.2.2.2.2.2.2 "d e f" ""⟩

/-- The state for the arming witness: some other query x was processed
long ago. -/
def stPrev : IntelState := ⟨"x", 0, []⟩

/-- The oracle for the first arming call, at time ten. -/
def envHi : IntelEnv := { envZero with current_time := 10 }

/-- The oracle for the resubmission, one second later. -/
def envHi2 : IntelEnv := { envZero with current_time := 11 }

/-- Claim C10, witness: the meaningless transcript hi is skipped without
a response yet arms the debounce, and the identical resubmission one
second later is skipped as a duplicate. -/
theorem tracking_armed_before_filters_witness :
    (process_query stPrev envHi "hi" false false).state.last_processed_query = "hi"
    ∧ (process_query stPrev envHi "hi" false false).state.last_processed_time
        = envHi.current_time
    ∧ process_query stPrev envHi "hi" false false
        = { response := "", interrupted := false,
            state := track_update stPrev envHi.current_time "hi", actions := [],
            genPrompt := none }
    ∧ process_query (process_query stPrev envHi "hi" false false).state envHi2
        "hi" false false
        = { response := "", interrupted := false,
            state := (process_query stPrev envHi "hi" false false).state,
            actions := [], genPrompt := none } := by
  have h := tracking_armed_before_filters stPrev envHi "hi" false false (by decide)
  exact ⟨h.1, h.2.1, h.2.2.1 (by decide),
    h.2.2.2 envHi2 false (by norm_num [envHi, envHi2, envZero])⟩
